import Mathlib

/-!
Verification of `video_thumbnail.py` (s3-upload repository).

The thumbnail generator and upload orchestrator are shallowly embedded below.
External collaborators (the cv2 decoder, the ffmpeg scene detector, the PIL
resampling filter, the filesystem) are modelled as explicit parameters in an
`Env` record; machine floating point in `np.linspace` and in the `16/9` grid
height computation is modelled in exact arithmetic (the `int(...)` casts of
the source truncate toward zero, which on the non-negative values involved is
the floor).  Side effects of one `create_thumbnail` call are modelled as an
explicit workspace state (`TempDir`) and a trace of `Effect`s.
-/

namespace S3Upload

/-- An RGB pixel value. -/
abbrev Pixel : Type := Nat × Nat × Nat

/-- A decoded in-memory image: pixel dimensions plus row-major pixel data
(`PIL.Image` values as used by the source). -/
structure Img where
  width : Nat
  height : Nat
  data : List (List Pixel)
deriving DecidableEq, Repr

/-- Model of `PIL.Image.new("RGB", (w, h), color)`: a `w × h` canvas filled
with a constant colour. -/
def Img.new (w h : Nat) (c : Pixel) : Img :=
  ⟨w, h, List.replicate h (List.replicate w c)⟩

/-- Pixel lookup, black outside the stored data. -/
def Img.pixel (img : Img) (x y : Nat) : Pixel :=
  (img.data.getD y []).getD x (0, 0, 0)

/-- Model of `PIL.Image.paste(canvas, f, (x, y))`: overwrite the rectangle of
`canvas` whose top-left corner is `(x, y)` with the pixels of `f`, clipped at
the canvas boundary; the canvas dimensions are unchanged. -/
def Img.paste (canvas f : Img) (x y : Nat) : Img :=
  ⟨canvas.width, canvas.height,
   (List.range canvas.height).map fun py =>
     (List.range canvas.width).map fun px =>
       if x ≤ px ∧ px < x + f.width ∧ y ≤ py ∧ py < y + f.height then
         f.pixel (px - x) (py - y)
       else canvas.pixel px py⟩

/-- The video decode collaborator (`cv2.VideoCapture`): whether the source can
be opened, `CAP_PROP_FRAME_COUNT` as an integer, and seek-and-decode, which may
fail per frame (`cap.read` returning `ret = False`). -/
structure Video where
  openable : Bool
  total_frames : Int
  decode : Int → Option Img

/-- The external collaborators of one generator invocation: the video, the
ffmpeg scene detector (threshold ↦ the frame files it writes, in filename
order), `ImageOps.fit` with the LANCZOS filter, and whether `shutil.rmtree`
succeeds. -/
structure Env where
  video : Video
  det : ℚ → List Img
  fit : Img → Nat → Nat → Img
  rmtree_ok : Bool

/-- Configuration fields of `VideoThumbnailGenerator.__init__`:
`rows`, `cols`, and `thumb_size = (thumb_width, thumb_height)`. -/
structure Gen where
  rows : Nat
  cols : Nat
  thumb_width : Nat
  thumb_height : Nat

/-- The temp workspace (`temp_dir`): whether the directory exists and which
`scene_*.jpg` frame files it holds. -/
structure TempDir where
  present : Bool
  sceneFiles : List Img
deriving DecidableEq, Repr

/-- Exceptions raised by `create_thumbnail`: the `ValueError("Invalid mode …")`
and the `ValueError("Cannot open video file")`. -/
inductive Err
  | invalidMode
  | videoOpenError
deriving DecidableEq, Repr

/-- Observable side effects of one call, in order of occurrence. -/
inductive Effect
  | openVideo
  | clearSceneFiles
  | runDetector (t : ℚ)
  | saveOutput
  | removeTempDir
deriving DecidableEq, Repr

/-- Python `str.rfind` for a single character over the character list of a
path: index of the last occurrence, `-1` if absent. -/
def rfind (l : List Char) (c : Char) : Int :=
  l.enum.foldl (fun acc p => if p.2 = c then (p.1 : Int) else acc) (-1)

/-- The extension component of `os.path.splitext(p)` (CPython algorithm): the
suffix from the last dot, provided that dot lies after the last `/` and the
part of the file name before it is not made of dots only. -/
def splitext_ext (p : String) : String :=
  let cs := p.data
  let sepIndex := rfind cs '/'
  let dotIndex := rfind cs '.'
  if sepIndex < dotIndex then
    if ((cs.drop (sepIndex + 1).toNat).take (dotIndex - sepIndex - 1).toNat).all (· = '.') then
      ""
    else
      String.mk (cs.drop dotIndex.toNat)
  else ""

/-- The root component of `os.path.splitext(p)`: the path with its extension
removed. -/
def splitext_root (p : String) : String :=
  String.mk (p.data.take (p.data.length - (splitext_ext p).data.length))

/-- `os.path.basename`: everything after the last `/`. -/
def basename (p : String) : String :=
  String.mk (p.data.drop ((rfind p.data '/') + 1).toNat)

/-- `os.path.dirname` (posix): everything up to the last `/`, with trailing
slashes stripped unless the head is all slashes. -/
def dirname (p : String) : String :=
  let cs := p.data
  let head := cs.take ((rfind cs '/') + 1).toNat
  if head ≠ [] ∧ ¬ head.all (· = '/') then
    String.mk ((head.reverse.dropWhile (· = '/')).reverse)
  else String.mk head

/-- `os.path.join` (posix) for two components. -/
def path_join (a b : String) : String :=
  if b.data.head? = some '/' then b
  else if a = "" then b
  else if a.data.getLast? = some '/' then a ++ b
  else a ++ "/" ++ b

/-- The default output path computed in `VideoThumbnailGenerator.__init__`:
`dirname(abspath(video)) / (basename-without-extension + "_thumbnail.jpg")`.
`os.path.abspath` is modelled as the identity (paths are taken to be given in
absolute, already-normalised form). -/
def default_output_path (video_path : String) : String :=
  path_join (dirname video_path) (splitext_root (basename video_path) ++ "_thumbnail.jpg")

/-- Model of `np.linspace(0, total_frames - 1, num, dtype=int)` as computed at
line 236 of the source, in exact arithmetic: `num` evenly spaced points across
`[0, total_frames - 1]`, each truncated toward zero (`astype(int)`). -/
def frame_indices (total_frames : Int) (num : Nat) : List Int :=
  if num ≤ 1 then List.replicate num 0
  else (List.range num).map fun i : Nat =>
    Int.tdiv ((total_frames - 1) * (i : Int)) ((num : Int) - 1)

/-- Grid pixel width, line 310: `thumb_width * cols`. -/
def grid_width (g : Gen) : Nat := g.thumb_width * g.cols

/-- Grid pixel height, line 311: `int(grid_width / (16/9))`, i.e. the quotient
`grid_width * 9 / 16` truncated (for non-negative values `int` truncation is
the floor, and the float computation of the source agrees with the exact one
on this formula). -/
def grid_height (g : Gen) : Nat := grid_width g * 9 / 16

/-- Cell pixel width, line 312: `grid_width // cols`. -/
def cell_width (g : Gen) : Nat := grid_width g / g.cols

/-- Cell pixel height, line 313: `grid_height // rows`. -/
def cell_height (g : Gen) : Nat := grid_height g / g.rows

/-- `_build_grid`: resize every frame with `ImageOps.fit` into
`(cell_width, cell_height)`, then paste them row-major (`divmod(i, cols)`)
onto a black canvas of size `(grid_width, grid_height)`. -/
def build_grid (fit : Img → Nat → Nat → Img) (g : Gen) (frames : List Img) : Img :=
  let resized := frames.map fun f => fit f (cell_width g) (cell_height g)
  let canvas := Img.new (grid_width g) (grid_height g) (0, 0, 0)
  resized.enum.foldl
    (fun acc p =>
      Img.paste acc p.2 ((p.1 % g.cols) * cell_width g) ((p.1 / g.cols) * cell_height g))
    canvas

/-- `_create_timeframe_grid`: open the video (raising `videoOpenError` if that
fails), pick `rows * cols` evenly spaced frame indices, decode each (silently
skipping per-frame decode failures), and build the grid. -/
def create_timeframe_grid (env : Env) (g : Gen) : Except Err Img × List Effect :=
  if env.video.openable then
    let num_thumbnails := g.rows * g.cols
    let idxs := frame_indices env.video.total_frames num_thumbnails
    let frames := idxs.filterMap env.video.decode
    (Except.ok (build_grid env.fit g frames), [Effect.openVideo, Effect.saveOutput])
  else (Except.error Err.videoOpenError, [Effect.openVideo])

/-- `_extract_scenechange_frames`: delete the previous `scene_*.jpg` files,
run the ffmpeg scene detector at threshold `t` (it writes its frame files into
the workspace), and return the sorted listing of the files it produced. -/
def extract_scenechange_frames (env : Env) (ws : TempDir) (t : ℚ) :
    List Img × TempDir × List Effect :=
  let files := env.det t
  (files, { ws with sceneFiles := files }, [Effect.clearSceneFiles, Effect.runDetector t])

/-- The threshold loop of `_create_scenechange_grid_auto`: try each threshold
in order; on the first one that yields files, take the first `rows * cols`,
build the grid and stop; if the list is exhausted, fall back to
`_create_timeframe_grid`. -/
def scenechange_go (env : Env) (g : Gen) : TempDir → List ℚ → Except Err Img × TempDir × List Effect
  | ws, [] =>
    let r := create_timeframe_grid env g
    (r.1, ws, r.2)
  | ws, t :: ts =>
    let e := extract_scenechange_frames env ws t
    if e.1 ≠ [] then
      (Except.ok (build_grid env.fit g (e.1.take (g.rows * g.cols))), e.2.1,
       e.2.2 ++ [Effect.saveOutput])
    else
      let rest := scenechange_go env g e.2.1 ts
      (rest.1, rest.2.1, e.2.2 ++ rest.2.2)

/-- The threshold ladder built at line 258 of the source:
`[start_threshold, 0.15, 0.08, 0.05, 0.02]`, with no filtering. -/
def thresholds_code (start_threshold : ℚ) : List ℚ :=
  [start_threshold, 15/100, 8/100, 5/100, 2/100]

/-- Modelled from the spec: the spec's § 4.1 ladder, which in contrast to the
code skips ladder entries that are `≥` the requested threshold. -/
def thresholds_spec (start_threshold : ℚ) : List ℚ :=
  start_threshold :: (([15/100, 8/100, 5/100, 2/100] : List ℚ).filter fun x => x < start_threshold)

/-- Modelled from the spec: § 4 step 3, the `N` interpolated values "rounded to
nearest integer frame index" instead of truncated. -/
def frame_indices_round (total_frames : Int) (num : Nat) : List Int :=
  if num ≤ 1 then List.replicate num 0
  else (List.range num).map fun i : Nat =>
    round ((((total_frames - 1) * (i : Int) : Int) : ℚ) / (((num : Int) - 1 : Int) : ℚ))

/-- Modelled from the spec: grid pixel height as `round(gridWidth / (16/9))`
instead of the code's truncating `int(...)` cast. -/
def grid_height_spec (g : Gen) : Int := round ((grid_width g : ℚ) / (16 / 9))

/-- `_create_scenechange_grid_auto`: run the threshold loop over the code's
ladder. -/
def create_scenechange_grid_auto (env : Env) (g : Gen) (ws : TempDir) (start_threshold : ℚ) :
    Except Err Img × TempDir × List Effect :=
  scenechange_go env g ws (thresholds_code start_threshold)

/-- `_cleanup_temp_dir`: `shutil.rmtree` of the workspace; a failure is logged
and swallowed, leaving the workspace as it was. -/
def cleanup_temp_dir (env : Env) (ws : TempDir) : TempDir × List Effect :=
  if env.rmtree_ok then (⟨false, []⟩, [Effect.removeTempDir]) else (ws, [])

/-- `create_thumbnail(mode, scene_threshold, cleanup)`: dispatch on `mode`
(raising `invalidMode` for anything other than `"timeframe"` and
`"scenechange"`), then run `_cleanup_temp_dir` when `cleanup` is true — the
cleanup is skipped when the strategy raised, because in the source the
exception propagates past it. -/
def create_thumbnail (env : Env) (g : Gen) (mode : String) (scene_threshold : ℚ)
    (cleanup : Bool) (ws : TempDir) : Except Err Img × TempDir × List Effect :=
  if mode = "timeframe" then
    let r := create_timeframe_grid env g
    match r.1 with
    | Except.error e => (Except.error e, ws, r.2)
    | Except.ok img =>
      if cleanup then
        let c := cleanup_temp_dir env ws
        (Except.ok img, c.1, r.2 ++ c.2)
      else (Except.ok img, ws, r.2)
  else if mode = "scenechange" then
    let r := create_scenechange_grid_auto env g ws scene_threshold
    match r.1 with
    | Except.error e => (Except.error e, r.2.1, r.2.2)
    | Except.ok img =>
      if cleanup then
        let c := cleanup_temp_dir env r.2.1
        (Except.ok img, c.1, r.2.2 ++ c.2)
      else (Except.ok img, r.2.1, r.2.2)
  else (Except.error Err.invalidMode, ws, [])

/-- S3 storage classes used by the orchestrator. -/
inductive StorageClass
  | STANDARD
  | DEEP_ARCHIVE
deriving DecidableEq, Repr

/-- The externally visible actions of the upload orchestrator, in order. -/
inductive UploadAction
  | generateThumbnail (videoPath : String) (mode : String) (scene_threshold : ℚ)
  | uploadFile (localPath bucket s3Key : String) (storageClass : StorageClass)
deriving DecidableEq, Repr

/-- Python `str.lower()`, modelled character-wise (the extensions involved are
ASCII). -/
def str_lower (s : String) : String := String.mk (s.data.map Char.toLower)

/-- The fixed video extension set of `process_file_and_upload` (line 138). -/
def video_extensions : List String :=
  [".mp4", ".avi", ".mov", ".mkv", ".wmv", ".flv", ".webm", ".m4v", ".3gp", ".ogv"]

/-- The thumbnail's S3 key computed in `process_video_and_upload`:
`join(dirname(key), splitext(basename(key))[0] + suffix)`. -/
def s3_thumb_key (s3_video_key thumbnail_suffix : String) : String :=
  path_join (dirname s3_video_key) (splitext_root (basename s3_video_key) ++ thumbnail_suffix)

/-- `process_video_and_upload`: generate the thumbnail (a 4×4 grid at scene
threshold `0.1` in the requested mode), then upload the video to
`DEEP_ARCHIVE` and the thumbnail to `STANDARD`. -/
def process_video_and_upload (local_video_path bucket_name s3_video_key
    thumbnail_suffix thumbnail_mode : String) : List UploadAction :=
  [UploadAction.generateThumbnail local_video_path thumbnail_mode (1/10),
   UploadAction.uploadFile local_video_path bucket_name s3_video_key StorageClass.DEEP_ARCHIVE,
   UploadAction.uploadFile (default_output_path local_video_path) bucket_name
     (s3_thumb_key s3_video_key thumbnail_suffix) StorageClass.STANDARD]

/-- `process_file_and_upload`: if the lower-cased extension is in the video
set, run the video workflow, otherwise upload the file directly to
`STANDARD`. -/
def process_file_and_upload (local_file_path bucket_name s3_key
    thumbnail_suffix thumbnail_mode : String) : List UploadAction :=
  let file_ext := str_lower (splitext_ext local_file_path)
  if file_ext ∈ video_extensions then
    process_video_and_upload local_file_path bucket_name s3_key thumbnail_suffix thumbnail_mode
  else
    [UploadAction.uploadFile local_file_path bucket_name s3_key StorageClass.STANDARD]

/-- The thresholds passed to the detector during a call, read off its effect
trace in order. -/
def detector_calls (tr : List Effect) : List ℚ :=
  tr.filterMap fun e =>
    match e with
    | Effect.runDetector t => some t
    | _ => none

/-- A sample scene frame file used to instantiate theorems. -/
def imgA : Img := Img.new 2 1 (7, 7, 7)

/-- A sample openable five-frame video. -/
def videoA : Video :=
  { openable := true
    total_frames := 5
    decode := fun i => if 0 ≤ i ∧ i < 5 then some (Img.new 2 1 (i.toNat, 0, 0)) else none }

/-- A sample resampling collaborator that honours the PIL dimension contract. -/
def fitA : Img → Nat → Nat → Img := fun _ w h => Img.new w h (1, 2, 3)

/-- An environment whose detector always finds one scene frame. -/
def envA : Env := { video := videoA, det := fun _ => [imgA], fit := fitA, rmtree_ok := true }

/-- An environment whose detector never finds a scene frame. -/
def envNoScenes : Env :=
  { video := videoA, det := fun _ => [], fit := fitA, rmtree_ok := true }

/-- An environment whose video cannot be opened. -/
def envClosed : Env :=
  { video := { openable := false, total_frames := 0, decode := fun _ => none }
    det := fun _ => [], fit := fitA, rmtree_ok := true }

/-- A sample 1×1 grid configuration with target cell width 2. -/
def gA : Gen := ⟨1, 1, 2, 9⟩

/-- A sample existing, empty workspace. -/
def wsA : TempDir := ⟨true, []⟩

/-- A degenerate 1×1 grid configuration with target cell width 1. -/
def gB : Gen := ⟨1, 1, 1, 1⟩

/-! Basic unfolding lemmas for the scene-change threshold loop. -/

theorem scenechange_go_nil (env : Env) (g : Gen) (ws : TempDir) :
    scenechange_go env g ws [] =
      ((create_timeframe_grid env g).1, ws, (create_timeframe_grid env g).2) := rfl

theorem scenechange_go_cons_of_empty (env : Env) (g : Gen) (ws : TempDir) (t : ℚ)
    (ts : List ℚ) (h : env.det t = []) :
    scenechange_go env g ws (t :: ts) =
      ((scenechange_go env g ⟨ws.present, []⟩ ts).1,
       (scenechange_go env g ⟨ws.present, []⟩ ts).2.1,
       Effect.clearSceneFiles :: Effect.runDetector t ::
         (scenechange_go env g ⟨ws.present, []⟩ ts).2.2) := by
  simp [scenechange_go, extract_scenechange_frames, h]

theorem scenechange_go_cons_of_nonempty (env : Env) (g : Gen) (ws : TempDir) (t : ℚ)
    (ts : List ℚ) (h : env.det t ≠ []) :
    scenechange_go env g ws (t :: ts) =
      (Except.ok (build_grid env.fit g ((env.det t).take (g.rows * g.cols))),
       ⟨ws.present, env.det t⟩,
       [Effect.clearSceneFiles, Effect.runDetector t, Effect.saveOutput]) := by
  simp [scenechange_go, extract_scenechange_frames, h]

theorem scenechange_go_all_empty (env : Env) (g : Gen) :
    ∀ (ts : List ℚ) (ws : TempDir), (∀ t ∈ ts, env.det t = []) →
      (scenechange_go env g ws ts).1 = (create_timeframe_grid env g).1
  | [], _, _ => rfl
  | t :: ts, ws, h => by
    rw [scenechange_go_cons_of_empty env g ws t ts (h t (List.mem_cons_self t ts))]
    exact scenechange_go_all_empty env g ts ⟨ws.present, []⟩
      (fun u hu => h u (List.mem_cons_of_mem t hu))

theorem scenechange_go_all_empty_detector_calls (env : Env) (g : Gen) :
    ∀ (ts : List ℚ) (ws : TempDir), (∀ t ∈ ts, env.det t = []) →
      detector_calls (scenechange_go env g ws ts).2.2 = ts
  | [], ws, _ => by
    rw [scenechange_go_nil]
    unfold create_timeframe_grid
    cases h : env.video.openable <;> simp [detector_calls]
  | t :: ts, ws, h => by
    rw [scenechange_go_cons_of_empty env g ws t ts (h t (List.mem_cons_self t ts))]
    have ih := scenechange_go_all_empty_detector_calls env g ts ⟨ws.present, []⟩
      (fun u hu => h u (List.mem_cons_of_mem t hu))
    simp only [detector_calls, List.filterMap_cons] at ih ⊢
    simpa using ih

theorem create_timeframe_grid_ne_invalid (env : Env) (g : Gen) :
    (create_timeframe_grid env g).1 ≠ Except.error Err.invalidMode := by
  unfold create_timeframe_grid
  cases h : env.video.openable <;> simp

theorem scenechange_go_ne_invalid (env : Env) (g : Gen) :
    ∀ (ts : List ℚ) (ws : TempDir),
      (scenechange_go env g ws ts).1 ≠ Except.error Err.invalidMode
  | [], ws => by
    rw [scenechange_go_nil]
    exact create_timeframe_grid_ne_invalid env g
  | t :: ts, ws => by
    by_cases h : env.det t = []
    · rw [scenechange_go_cons_of_empty env g ws t ts h]
      exact scenechange_go_ne_invalid env g ts ⟨ws.present, []⟩
    · rw [scenechange_go_cons_of_nonempty env g ws t ts h]
      simp

/-- C1 (counterexample): at requested threshold `0.1` the code's ladder keeps
the looser entry `0.15` (an entry `≥` the requested threshold that the claim
says is skipped), differs from the spec's filtered ladder, and the attempted
sequence is not monotonically non-increasing. -/
theorem thresholds_code_not_filtered :
    thresholds_code (1/10) ≠ thresholds_spec (1/10) ∧
    (15/100 : ℚ) ∈ thresholds_code (1/10) ∧ (1/10 : ℚ) ≤ 15/100 ∧
    ¬ List.Chain' (fun a b : ℚ => b ≤ a) (thresholds_code (1/10)) := by
  refine ⟨?_, ?_, by norm_num, ?_⟩
  · norm_num [thresholds_code, thresholds_spec, List.filter]
  · norm_num [thresholds_code]
  · simp only [thresholds_code, List.chain'_cons, List.chain'_singleton]
    norm_num

/-- C1 (amended): when every ladder threshold yields zero frames, the
thresholds attempted by the scene-change strategy are exactly the caller's
requested threshold followed by all of `0.15, 0.08, 0.05, 0.02` — no ladder
entry is skipped — and the attempted sequence is monotonically non-increasing
whenever the requested threshold is at least `0.15`. -/
theorem scenechange_attempted_thresholds (env : Env) (g : Gen) (ws : TempDir) (t0 : ℚ)
    (h : ∀ t ∈ thresholds_code t0, env.det t = []) :
    detector_calls (create_scenechange_grid_auto env g ws t0).2.2 =
      [t0, 15/100, 8/100, 5/100, 2/100] ∧
    (15/100 ≤ t0 →
      List.Chain' (fun a b : ℚ => b ≤ a)
        (detector_calls (create_scenechange_grid_auto env g ws t0).2.2)) := by
  have hcalls := scenechange_go_all_empty_detector_calls env g (thresholds_code t0) ws h
  constructor
  · unfold create_scenechange_grid_auto
    rw [hcalls]
    rfl
  · intro ht
    unfold create_scenechange_grid_auto
    rw [hcalls]
    simp only [thresholds_code, List.chain'_cons, List.chain'_singleton]
    exact ⟨ht, by norm_num, by norm_num, by norm_num⟩

/-- C1 witness. -/
theorem scenechange_attempted_thresholds_witness :
    detector_calls (create_scenechange_grid_auto envNoScenes gA wsA (3/10)).2.2 =
      [3/10, 15/100, 8/100, 5/100, 2/100] ∧
    List.Chain' (fun a b : ℚ => b ≤ a)
      (detector_calls (create_scenechange_grid_auto envNoScenes gA wsA (3/10)).2.2) := by
  have h := scenechange_attempted_thresholds envNoScenes gA wsA (3/10)
    (fun _ _ => rfl)
  exact ⟨h.1, h.2 (by norm_num)⟩

/-- C6: if the detector yields one or more frame files at some ladder
threshold — every earlier ladder threshold having yielded none — then the grid
is composited from at most the first `rows * cols` of those files, the call
stops there (the trace holds one detector run per earlier threshold plus the
successful one, and none for the remaining thresholds), and in particular when
the caller's initial threshold succeeds the detector is invoked exactly
once. -/
theorem scenechange_first_success (env : Env) (g : Gen) (ws : TempDir) (t0 : ℚ)
    (ts1 : List ℚ) (t : ℚ) (ts2 : List ℚ)
    (hsplit : thresholds_code t0 = ts1 ++ t :: ts2)
    (hempty : ∀ u ∈ ts1, env.det u = [])
    (hsucc : env.det t ≠ []) :
    create_scenechange_grid_auto env g ws t0 =
      (Except.ok (build_grid env.fit g ((env.det t).take (g.rows * g.cols))),
       ⟨ws.present, env.det t⟩,
       (ts1.map fun u => [Effect.clearSceneFiles, Effect.runDetector u]).flatten ++
         [Effect.clearSceneFiles, Effect.runDetector t, Effect.saveOutput]) := by
  unfold create_scenechange_grid_auto
  rw [hsplit]
  clear hsplit
  revert hempty
  induction ts1 generalizing ws with
  | nil =>
    intro _
    simpa using scenechange_go_cons_of_nonempty env g ws t ts2 hsucc
  | cons u us ih =>
    intro hempty
    rw [List.cons_append,
        scenechange_go_cons_of_empty env g ws u (us ++ t :: ts2)
          (hempty u (List.mem_cons_self u us)),
        ih ⟨ws.present, []⟩ (fun v hv => hempty v (List.mem_cons_of_mem u hv))]
    simp

/-- C6 witness. -/
theorem scenechange_first_success_witness :
    create_scenechange_grid_auto envA gA wsA (3/10) =
      (Except.ok (build_grid envA.fit gA ((envA.det (3/10)).take (gA.rows * gA.cols))),
       ⟨wsA.present, envA.det (3/10)⟩,
       [Effect.clearSceneFiles, Effect.runDetector (3/10), Effect.saveOutput]) := by
  have h := scenechange_first_success envA gA wsA (3/10) [] (3/10)
    [15/100, 8/100, 5/100, 2/100] rfl (fun u hu => absurd hu (List.not_mem_nil u))
    (by simp [envA])
  simpa using h

/-- C2: if scene detection yields zero frames at every ladder threshold, a
scene-change call returns exactly the result of a time-frame call on the same
video with the same grid shape (the fallback invokes the time-based strategy,
so the images are pixel-identical and the `videoOpenError` failure mode is
inherited). -/
theorem scenechange_fallback_eq_timeframe (env : Env) (g : Gen) (t0 : ℚ)
    (cl : Bool) (ws : TempDir)
    (h : ∀ t ∈ thresholds_code t0, env.det t = []) :
    (create_thumbnail env g "scenechange" t0 cl ws).1 =
      (create_thumbnail env g "timeframe" t0 cl ws).1 := by
  have h1 : (create_scenechange_grid_auto env g ws t0).1 = (create_timeframe_grid env g).1 :=
    scenechange_go_all_empty env g (thresholds_code t0) ws h
  rcases hauto : create_scenechange_grid_auto env g ws t0 with ⟨r1, ws1, tr1⟩
  rcases htf : create_timeframe_grid env g with ⟨r2, tr2⟩
  rw [hauto, htf] at h1
  dsimp only at h1
  subst h1
  cases r1 <;> cases cl <;> simp [create_thumbnail, hauto, htf]

/-- C2 witness. -/
theorem scenechange_fallback_eq_timeframe_witness :
    (create_thumbnail envNoScenes gA "scenechange" (3/10) true wsA).1 =
      (create_thumbnail envNoScenes gA "timeframe" (3/10) true wsA).1 :=
  scenechange_fallback_eq_timeframe envNoScenes gA (3/10) true wsA (fun _ _ => rfl)

/-- C7: `create_thumbnail` raises the invalid-mode error exactly when `mode`
is neither `"timeframe"` nor `"scenechange"` — so this is its only validation
failure — and in that case the call performs no effect at all before failing:
the video is not opened, the detector never runs, nothing is written, and the
temp workspace is returned untouched. -/
theorem create_thumbnail_invalid_mode (env : Env) (g : Gen) (mode : String)
    (t0 : ℚ) (cl : Bool) (ws : TempDir) :
    ((create_thumbnail env g mode t0 cl ws).1 = Except.error Err.invalidMode ↔
      (mode ≠ "timeframe" ∧ mode ≠ "scenechange")) ∧
    ((mode ≠ "timeframe" ∧ mode ≠ "scenechange") →
      create_thumbnail env g mode t0 cl ws = (Except.error Err.invalidMode, ws, [])) := by
  by_cases h1 : mode = "timeframe"
  · subst h1
    have hne := create_timeframe_grid_ne_invalid env g
    rcases htf : create_timeframe_grid env g with ⟨r, tr⟩
    rw [htf] at hne
    dsimp only at hne
    constructor
    · simp only [create_thumbnail, htf, if_pos rfl]
      cases r <;> cases cl <;> simp_all
    · rintro ⟨hx, -⟩
      exact absurd rfl hx
  · by_cases h2 : mode = "scenechange"
    · subst h2
      have hne := scenechange_go_ne_invalid env g (thresholds_code t0) ws
      rcases hauto : create_scenechange_grid_auto env g ws t0 with ⟨r, ws1, tr⟩
      rw [show scenechange_go env g ws (thresholds_code t0) =
            create_scenechange_grid_auto env g ws t0 from rfl, hauto] at hne
      dsimp only at hne
      constructor
      · simp only [create_thumbnail, hauto, if_neg h1, if_pos rfl]
        cases r <;> cases cl <;> simp_all
      · rintro ⟨-, hx⟩
        exact absurd rfl hx
    · have hres : create_thumbnail env g mode t0 cl ws =
          (Except.error Err.invalidMode, ws, []) := by
        simp [create_thumbnail, h1, h2]
      refine ⟨?_, fun _ => hres⟩
      rw [hres]
      simp [h1, h2]

/-- C7 witness. -/
theorem create_thumbnail_invalid_mode_witness :
    create_thumbnail envA gA "bogus" (3/10) true wsA =
      (Except.error Err.invalidMode, wsA, []) :=
  (create_thumbnail_invalid_mode envA gA "bogus" (3/10) true wsA).2
    ⟨by decide, by decide⟩

theorem frame_indices_props (T : Int) (N : Nat) (hT : 1 ≤ T) (hN : 1 ≤ N) :
    List.Chain' (fun a b : Int => a ≤ b) (frame_indices T N) ∧
    (∀ i ∈ frame_indices T N, 0 ≤ i ∧ i ≤ T - 1) ∧
    (1 < N → (frame_indices T N).head? = some 0 ∧
      (frame_indices T N).getLast? = some (T - 1)) := by
  rcases eq_or_lt_of_le hN with h1 | h2
  · refine ⟨?_, ?_, ?_⟩
    · simp [frame_indices, ← h1]
    · intro i hi
      simp [frame_indices, ← h1] at hi
      subst hi
      exact ⟨le_refl 0, by omega⟩
    · intro h
      omega
  · obtain ⟨n, rfl⟩ : ∃ n, N = n + 1 := ⟨N - 1, by omega⟩
    have hn : 1 ≤ n := by omega
    have hdpos : (0 : Int) < (n : Int) := by exact_mod_cast hn
    have ht9 : (0 : Int) ≤ T - 1 := by omega
    have hfi : ∀ i : Nat, Int.tdiv ((T - 1) * (i : Int)) (((n + 1 : Nat) : Int) - 1)
        = ((T - 1) * (i : Int)) / (n : Int) := by
      intro i
      have hc : ((((n + 1) : Nat) : Int) - 1) = (n : Int) := by push_cast; ring
      rw [hc, Int.tdiv_eq_ediv (by positivity) (le_of_lt hdpos)]
    have hfform : frame_indices T (n + 1) = (List.range (n + 1)).map
        (fun i : Nat => ((T - 1) * (i : Int)) / (n : Int)) := by
      unfold frame_indices
      rw [if_neg (by omega)]
      exact List.map_congr_left fun i _ => hfi i
    rw [hfform]
    refine ⟨?_, ?_, fun _ => ⟨?_, ?_⟩⟩
    · rw [List.chain'_map, List.chain'_range_succ]
      intro m _
      exact Int.ediv_le_ediv hdpos
        (mul_le_mul_of_nonneg_left (by exact_mod_cast Nat.le_succ m) ht9)
    · intro i hi
      rcases List.mem_map.1 hi with ⟨j, hj, rfl⟩
      have hjn : j ≤ n := by
        have := List.mem_range.1 hj
        omega
      refine ⟨Int.ediv_nonneg (mul_nonneg ht9 (by positivity)) (le_of_lt hdpos), ?_⟩
      calc ((T - 1) * (j : Int)) / (n : Int)
          ≤ ((T - 1) * (n : Int)) / (n : Int) :=
            Int.ediv_le_ediv hdpos (mul_le_mul_of_nonneg_left (by exact_mod_cast hjn) ht9)
        _ = T - 1 := Int.mul_ediv_cancel _ (ne_of_gt hdpos)
    · rw [List.head?_map, List.range_succ_eq_map]
      simp
    · rw [List.range_succ, List.map_append]
      simp only [List.map_cons, List.map_nil, List.getLast?_concat]
      rw [Int.mul_ediv_cancel _ (ne_of_gt hdpos)]

/-- C3: for every grid shape with `rows, cols ≥ 1` and every video with total
frame count `T ≥ 1`, the `rows * cols` frame indices selected by time-based
sampling are non-decreasing, each lies within `[0, T-1]`, and when more than
one index is selected the first is `0` and the last is `T-1`. -/
theorem timeframe_indices_sound (rows cols : Nat) (T : Int)
    (hr : 1 ≤ rows) (hc : 1 ≤ cols) (hT : 1 ≤ T) :
    List.Chain' (fun a b : Int => a ≤ b) (frame_indices T (rows * cols)) ∧
    (∀ i ∈ frame_indices T (rows * cols), 0 ≤ i ∧ i ≤ T - 1) ∧
    (1 < rows * cols →
      (frame_indices T (rows * cols)).head? = some 0 ∧
      (frame_indices T (rows * cols)).getLast? = some (T - 1)) :=
  frame_indices_props T (rows * cols) hT (Nat.mul_pos hr hc)

/-- C3 witness. -/
theorem timeframe_indices_sound_witness :
    List.Chain' (fun a b : Int => a ≤ b) (frame_indices 5 (2 * 2)) ∧
    (frame_indices 5 (2 * 2)).head? = some 0 ∧
    (frame_indices 5 (2 * 2)).getLast? = some 4 := by
  have h := timeframe_indices_sound 2 2 5 (by decide) (by decide) (by decide)
  exact ⟨h.1, (h.2.2 (by decide)).1, (h.2.2 (by decide)).2⟩

/-- C4 (counterexample): for a 3-frame video and a 1×4 grid the code's
truncating `linspace` picks indices `[0, 0, 1, 2]`, while rounding each
interpolated value to the nearest integer — as the claim states — would pick
`[0, 1, 1, 2]`. -/
theorem frame_indices_not_rounded :
    frame_indices 3 4 = [0, 0, 1, 2] ∧
    frame_indices_round 3 4 = [0, 1, 1, 2] ∧
    frame_indices 3 4 ≠ frame_indices_round 3 4 := by
  have h1 : frame_indices 3 4 = [0, 0, 1, 2] := by decide
  have h2 : frame_indices_round 3 4 = [0, 1, 1, 2] := by
    norm_num [frame_indices_round, List.range_succ, round_eq]
  refine ⟨h1, h2, ?_⟩
  rw [h1, h2]
  decide

/-- C4 (amended): time-based sampling computes its `N = rows * cols` target
indices as the linear interpolation of `N` evenly spaced points across
`[0, T-1]` inclusive, with each interpolated value truncated (floored) to an
integer rather than rounded to nearest; duplicates at the boundaries are
permitted for short videos with no special-casing. -/
theorem frame_indices_eq_floor (T : Int) (num : Nat) (hT : 1 ≤ T) (hnum : 2 ≤ num)
    (i : Nat) (hi : i < num) :
    (frame_indices T num).getD i 0 =
      ⌊(((T - 1) * (i : Int) : Int) : ℚ) / (((num : Int) - 1 : Int) : ℚ)⌋ := by
  have hne : ¬ num ≤ 1 := by omega
  unfold frame_indices
  rw [if_neg hne, List.getD_eq_getElem?_getD, List.getElem?_map, List.getElem?_range hi]
  simp only [Option.map_some', Option.getD_some]
  have hd : (0 : Int) < (num : Int) - 1 := by omega
  have hnum9 : ((num : Int) - 1) = ((num - 1 : Nat) : Int) := by omega
  rw [Int.tdiv_eq_ediv (mul_nonneg (by omega) (by positivity)) (le_of_lt hd), hnum9,
      Int.cast_natCast, Rat.floor_intCast_div_natCast]

/-- C4 witness. -/
theorem frame_indices_eq_floor_witness :
    (frame_indices 3 4).getD 2 0 =
      ⌊(((3 - 1) * (2 : Int) : Int) : ℚ) / (((4 : Int) - 1 : Int) : ℚ)⌋ :=
  frame_indices_eq_floor 3 4 (by decide) (by decide) 2 (by decide)

/-! Geometry of the compositor. -/

theorem getD_map_range {α : Type} (f : Nat → α) (n i : Nat) (d : α) (h : i < n) :
    ((List.range n).map f).getD i d = f i := by
  rw [List.getD_eq_getElem?_getD, List.getElem?_map, List.getElem?_range h]
  rfl

theorem Img.pixel_paste (canvas f : Img) (x y px py : Nat)
    (hx : px < canvas.width) (hy : py < canvas.height) :
    (Img.paste canvas f x y).pixel px py =
      if x ≤ px ∧ px < x + f.width ∧ y ≤ py ∧ py < y + f.height then
        f.pixel (px - x) (py - y)
      else canvas.pixel px py := by
  simp only [Img.paste, Img.pixel]
  rw [getD_map_range _ _ _ _ hy, getD_map_range _ _ _ _ hx]

theorem foldl_paste_width (g : Gen) :
    ∀ (l : List (Nat × Img)) (G : Img),
      (l.foldl (fun acc p => Img.paste acc p.2 ((p.1 % g.cols) * cell_width g)
          ((p.1 / g.cols) * cell_height g)) G).width = G.width
  | [], _ => rfl
  | _ :: l, _ => (foldl_paste_width g l _).trans rfl

theorem foldl_paste_height (g : Gen) :
    ∀ (l : List (Nat × Img)) (G : Img),
      (l.foldl (fun acc p => Img.paste acc p.2 ((p.1 % g.cols) * cell_width g)
          ((p.1 / g.cols) * cell_height g)) G).height = G.height
  | [], _ => rfl
  | _ :: l, _ => (foldl_paste_height g l _).trans rfl

theorem cell_width_mul (g : Gen) (hc : 1 ≤ g.cols) :
    cell_width g * g.cols = grid_width g := by
  unfold cell_width grid_width
  rw [Nat.mul_div_cancel _ hc]

theorem cell_point_lt_grid_width (g : Gen) (hc : 1 ≤ g.cols) (c dx : Nat)
    (hcc : c < g.cols) (hdx : dx < cell_width g) :
    c * cell_width g + dx < grid_width g := by
  have h1 : c * cell_width g + dx < (c + 1) * cell_width g := by
    rw [Nat.succ_mul]
    omega
  have h2 : (c + 1) * cell_width g ≤ g.cols * cell_width g :=
    Nat.mul_le_mul_right _ hcc
  have h3 : g.cols * cell_width g = grid_width g := by
    rw [Nat.mul_comm]
    exact cell_width_mul g hc
  omega

theorem cell_point_lt_grid_height (g : Gen) (r dy : Nat)
    (hr : r < g.rows) (hdy : dy < cell_height g) :
    r * cell_height g + dy < grid_height g := by
  have h1 : r * cell_height g + dy < (r + 1) * cell_height g := by
    rw [Nat.succ_mul]
    omega
  have h2 : (r + 1) * cell_height g ≤ g.rows * cell_height g :=
    Nat.mul_le_mul_right _ hr
  have h3 : g.rows * cell_height g ≤ grid_height g := by
    rw [Nat.mul_comm]
    exact Nat.div_mul_le_self _ _
  omega

theorem foldl_paste_pixel (g : Gen) (r c dx dy : Nat)
    (hr : r < g.rows) (hcc : c < g.cols)
    (hdx : dx < cell_width g) (hdy : dy < cell_height g) :
    ∀ (l : List Img) (k : Nat) (G : Img), G.width = grid_width g → G.height = grid_height g →
      (∀ f ∈ l, f.width = cell_width g ∧ f.height = cell_height g) →
      ((l.enumFrom k).foldl (fun acc p => Img.paste acc p.2 ((p.1 % g.cols) * cell_width g)
          ((p.1 / g.cols) * cell_height g)) G).pixel
          (c * cell_width g + dx) (r * cell_height g + dy) =
        if k ≤ r * g.cols + c ∧ r * g.cols + c < k + l.length then
          (l.getD (r * g.cols + c - k) (Img.new 0 0 (0, 0, 0))).pixel dx dy
        else G.pixel (c * cell_width g + dx) (r * cell_height g + dy)
  | [], k, G, _, _, _ => by
    simp only [List.enumFrom_nil, List.foldl_nil, List.length_nil, Nat.add_zero]
    rw [if_neg (by omega)]
  | f :: l, k, G, hGw, hGh, hdims => by
    have hfw : f.width = cell_width g := (hdims f (List.mem_cons_self f l)).1
    have hfh : f.height = cell_height g := (hdims f (List.mem_cons_self f l)).2
    have hcols : 1 ≤ g.cols := by omega
    have hpxw : c * cell_width g + dx < G.width := by
      rw [hGw]
      exact cell_point_lt_grid_width g hcols c dx hcc hdx
    have hpyh : r * cell_height g + dy < G.height := by
      rw [hGh]
      exact cell_point_lt_grid_height g r dy hr hdy
    have hpaste := Img.pixel_paste G f ((k % g.cols) * cell_width g)
      ((k / g.cols) * cell_height g) (c * cell_width g + dx) (r * cell_height g + dy) hpxw hpyh
    rw [List.enumFrom_cons, List.foldl_cons,
        foldl_paste_pixel g r c dx dy hr hcc hdx hdy l (k + 1)
          (Img.paste G f ((k % g.cols) * cell_width g) ((k / g.cols) * cell_height g))
          hGw hGh (fun f' hf' => hdims f' (List.mem_cons_of_mem f hf')),
        List.length_cons]
    by_cases hk : k = r * g.cols + c
    · have hkc : k % g.cols = c := by
        rw [hk, Nat.add_comm, Nat.add_mul_mod_self_right, Nat.mod_eq_of_lt hcc]
      have hkd : k / g.cols = r := by
        rw [hk, Nat.add_comm, Nat.add_mul_div_right _ _ hcols, Nat.div_eq_of_lt hcc,
          Nat.zero_add]
      have hreg : (k % g.cols) * cell_width g ≤ c * cell_width g + dx ∧
          c * cell_width g + dx < (k % g.cols) * cell_width g + f.width ∧
          (k / g.cols) * cell_height g ≤ r * cell_height g + dy ∧
          r * cell_height g + dy < (k / g.cols) * cell_height g + f.height := by
        rw [hkc, hkd, hfw, hfh]
        omega
      rw [if_neg (by omega), if_pos (by omega), hpaste, if_pos hreg, hkc, hkd, hk]
      have hdx9 : c * cell_width g + dx - c * cell_width g = dx := by omega
      have hdy9 : r * cell_height g + dy - r * cell_height g = dy := by omega
      rw [hdx9, hdy9, Nat.sub_self, List.getD_cons_zero]
    · have hreg_false : ¬ ((k % g.cols) * cell_width g ≤ c * cell_width g + dx ∧
          c * cell_width g + dx < (k % g.cols) * cell_width g + f.width ∧
          (k / g.cols) * cell_height g ≤ r * cell_height g + dy ∧
          r * cell_height g + dy < (k / g.cols) * cell_height g + f.height) := by
        rintro ⟨hx1, hx2, hy1, hy2⟩
        rw [hfw] at hx2
        rw [hfh] at hy2
        have hxc : (c * cell_width g + dx) / cell_width g = k % g.cols :=
          Nat.div_eq_of_lt_le hx1 (by rw [Nat.succ_mul]; omega)
        have hxc9 : (c * cell_width g + dx) / cell_width g = c :=
          Nat.div_eq_of_lt_le (Nat.le_add_right _ _) (by rw [Nat.succ_mul]; omega)
        have hyr : (r * cell_height g + dy) / cell_height g = k / g.cols :=
          Nat.div_eq_of_lt_le hy1 (by rw [Nat.succ_mul]; omega)
        have hyr9 : (r * cell_height g + dy) / cell_height g = r :=
          Nat.div_eq_of_lt_le (Nat.le_add_right _ _) (by rw [Nat.succ_mul]; omega)
        have hmod : k % g.cols = c := by omega
        have hdiv : k / g.cols = r := by omega
        have hsplit := Nat.div_add_mod k g.cols
        rw [hmod, hdiv, Nat.mul_comm] at hsplit
        omega
      rw [hpaste, if_neg hreg_false]
      by_cases hcond : k + 1 ≤ r * g.cols + c ∧ r * g.cols + c < k + 1 + l.length
      · rw [if_pos hcond, if_pos (by omega)]
        have hsub : r * g.cols + c - k = (r * g.cols + c - (k + 1)) + 1 := by omega
        rw [hsub, List.getD_cons_succ]
      · rw [if_neg hcond, if_neg (by omega)]

/-- C5 (counterexample): with `cellTargetWidth = 1` and a 1×1 grid the code's
grid height is `int(1 / (16/9)) = 0`, whereas the claimed
`round(1 / (16/9)) = 1`, so the composite is not `round(width / (16/9))`
pixels high. -/
theorem build_grid_height_not_rounded :
    (build_grid fitA gB []).height = 0 ∧
    grid_height_spec gB = 1 ∧
    ((build_grid fitA gB []).height : Int) ≠ grid_height_spec gB := by
  have h1 : (build_grid fitA gB []).height = 0 := by decide
  have h2 : grid_height_spec gB = 1 := by
    norm_num [grid_height_spec, grid_width, gB, round_eq]
  refine ⟨h1, h2, ?_⟩
  rw [h1, h2]
  decide

/-- C5 (amended): for every `rows, cols ≥ 1` and per-cell target width, and a
resampler honouring the PIL dimension contract, the composite written by
`_build_grid` is exactly `cellTargetWidth * cols` pixels wide and
`(cellTargetWidth * cols) * 9 / 16` pixels high (the claimed `round` is in
fact a truncating `int` cast); the cell height is the integer quotient
`gridHeight // rows` (characterised by the division inequalities), and frame
`i` is pasted resized to `(cellWidth, cellHeight)` at column `i % cols`, row
`i / cols`. -/
theorem build_grid_geometry (fit : Img → Nat → Nat → Img) (g : Gen) (frames : List Img)
    (hr : 1 ≤ g.rows) (_hc : 1 ≤ g.cols)
    (hfit : ∀ f w h, (fit f w h).width = w ∧ (fit f w h).height = h) :
    (build_grid fit g frames).width = g.thumb_width * g.cols ∧
    (build_grid fit g frames).height = g.thumb_width * g.cols * 9 / 16 ∧
    (g.rows * cell_height g ≤ grid_height g ∧
      grid_height g < g.rows * cell_height g + g.rows) ∧
    (∀ r c dx dy, r < g.rows → c < g.cols → dx < cell_width g → dy < cell_height g →
      r * g.cols + c < frames.length →
      (build_grid fit g frames).pixel (c * cell_width g + dx) (r * cell_height g + dy) =
        (fit (frames.getD (r * g.cols + c) (Img.new 0 0 (0, 0, 0)))
            (cell_width g) (cell_height g)).pixel dx dy) := by
  refine ⟨?_, ?_, ?_, ?_⟩
  · exact (foldl_paste_width g
      ((frames.map fun f => fit f (cell_width g) (cell_height g)).enum)
      (Img.new (grid_width g) (grid_height g) (0, 0, 0))).trans rfl
  · exact (foldl_paste_height g
      ((frames.map fun f => fit f (cell_width g) (cell_height g)).enum)
      (Img.new (grid_width g) (grid_height g) (0, 0, 0))).trans rfl
  · have hdm := Nat.div_add_mod (grid_height g) g.rows
    have hlt : grid_height g % g.rows < g.rows := Nat.mod_lt _ hr
    unfold cell_height
    omega
  · intro r c dx dy hrr hcc hdx hdy hlen
    have h := foldl_paste_pixel g r c dx dy hrr hcc hdx hdy
      (frames.map fun f => fit f (cell_width g) (cell_height g)) 0
      (Img.new (grid_width g) (grid_height g) (0, 0, 0)) rfl rfl
      (by
        intro f' hf'
        rcases List.mem_map.1 hf' with ⟨f0, -, rfl⟩
        exact hfit f0 _ _)
    show ((frames.map fun f => fit f (cell_width g) (cell_height g)).enum.foldl
        (fun acc p => Img.paste acc p.2 ((p.1 % g.cols) * cell_width g)
          ((p.1 / g.cols) * cell_height g))
        (Img.new (grid_width g) (grid_height g) (0, 0, 0))).pixel
        (c * cell_width g + dx) (r * cell_height g + dy) = _
    rw [List.enum_eq_enumFrom, h,
        if_pos ⟨Nat.zero_le _, by simpa using hlen⟩, Nat.sub_zero]
    congr 1
    rw [List.getD_eq_getElem?_getD, List.getElem?_map,
        List.getElem?_eq_getElem hlen, List.getD_eq_getElem?_getD,
        List.getElem?_eq_getElem hlen]
    rfl

/-- C5 witness. -/
theorem build_grid_geometry_witness :
    (build_grid fitA gA [imgA]).width = 2 ∧
    (build_grid fitA gA [imgA]).height = 1 ∧
    (build_grid fitA gA [imgA]).pixel 0 0 =
      (fitA imgA (cell_width gA) (cell_height gA)).pixel 0 0 := by
  have h := build_grid_geometry fitA gA [imgA] (by decide) (by decide)
    (fun _ _ _ => ⟨rfl, rfl⟩)
  refine ⟨h.1, h.2.1, ?_⟩
  have hp := h.2.2.2 0 0 0 0 (by decide) (by decide) (by decide) (by decide) (by decide)
  simpa using hp

/-- C8 (counterexample): a `cleanup = true` call on a video that cannot be
opened raises `videoOpenError` past the cleanup step, so the temp workspace
still exists after the call. -/
theorem cleanup_skipped_on_error :
    create_thumbnail envClosed gA "timeframe" (3/10) true wsA =
      (Except.error Err.videoOpenError, wsA, [Effect.openVideo]) ∧
    wsA.present = true := by
  exact ⟨rfl, rfl⟩

/-- C8 (amended): after a `createThumbnail` call that completes without
raising, with `cleanup = true` the temp workspace no longer exists provided
the recursive deletion succeeds, and a deletion failure is not propagated (the
call still returns the same image, leaving the workspace as the strategy left
it); with `cleanup = false` nothing is deleted at the end, so the per-frame
files written by a successful scene-change detection remain present. -/
theorem create_thumbnail_timeframe_eq (env : Env) (g : Gen) (t0 : ℚ) (cl : Bool)
    (ws : TempDir) :
    create_thumbnail env g "timeframe" t0 cl ws =
      match (create_timeframe_grid env g).1 with
      | Except.error e => (Except.error e, ws, (create_timeframe_grid env g).2)
      | Except.ok img =>
        if cl then (Except.ok img, (cleanup_temp_dir env ws).1,
            (create_timeframe_grid env g).2 ++ (cleanup_temp_dir env ws).2)
        else (Except.ok img, ws, (create_timeframe_grid env g).2) := rfl

theorem create_thumbnail_scenechange_eq (env : Env) (g : Gen) (t0 : ℚ) (cl : Bool)
    (ws : TempDir) :
    create_thumbnail env g "scenechange" t0 cl ws =
      match (create_scenechange_grid_auto env g ws t0).1 with
      | Except.error e => (Except.error e, (create_scenechange_grid_auto env g ws t0).2.1,
          (create_scenechange_grid_auto env g ws t0).2.2)
      | Except.ok img =>
        if cl then (Except.ok img,
            (cleanup_temp_dir env (create_scenechange_grid_auto env g ws t0).2.1).1,
            (create_scenechange_grid_auto env g ws t0).2.2 ++
              (cleanup_temp_dir env (create_scenechange_grid_auto env g ws t0).2.1).2)
        else (Except.ok img, (create_scenechange_grid_auto env g ws t0).2.1,
            (create_scenechange_grid_auto env g ws t0).2.2) := rfl

theorem create_thumbnail_cleanup (env : Env) (g : Gen) (mode : String) (t0 : ℚ)
    (ws : TempDir) (img : Img) (ws1 : TempDir) (tr : List Effect)
    (h : create_thumbnail env g mode t0 false ws = (Except.ok img, ws1, tr)) :
    (env.rmtree_ok = true → (create_thumbnail env g mode t0 true ws).2.1 = ⟨false, []⟩) ∧
    (env.rmtree_ok = false → (create_thumbnail env g mode t0 true ws).2.1 = ws1) ∧
    (create_thumbnail env g mode t0 true ws).1 = Except.ok img ∧
    (mode = "scenechange" → env.det t0 ≠ [] → ws1.sceneFiles = env.det t0) := by
  by_cases h1 : mode = "timeframe"
  · subst h1
    rw [create_thumbnail_timeframe_eq] at h ⊢
    rcases htf : create_timeframe_grid env g with ⟨r, tr0⟩
    rw [htf] at h
    cases r with
    | error e => simp at h
    | ok i =>
      simp only [if_neg Bool.false_ne_true] at h
      simp only [Prod.mk.injEq, Except.ok.injEq] at h
      obtain ⟨hi, hws, -⟩ := h
      subst hi
      subst hws
      refine ⟨?_, ?_, ?_, ?_⟩
      · intro hrm
        simp [cleanup_temp_dir, hrm]
      · intro hrm
        simp [cleanup_temp_dir, hrm]
      · simp
      · intro hx
        exact absurd hx (by decide)
  · by_cases h2 : mode = "scenechange"
    · subst h2
      rw [create_thumbnail_scenechange_eq] at h ⊢
      rcases hauto : create_scenechange_grid_auto env g ws t0 with ⟨r, ws2, tr2⟩
      rw [hauto] at h
      cases r with
      | error e => simp at h
      | ok i =>
        simp only [if_neg Bool.false_ne_true] at h
        simp only [Prod.mk.injEq, Except.ok.injEq] at h
        obtain ⟨hi, hws, -⟩ := h
        subst hi
        subst hws
        refine ⟨?_, ?_, ?_, ?_⟩
        · intro hrm
          simp [cleanup_temp_dir, hrm]
        · intro hrm
          simp [cleanup_temp_dir, hrm]
        · simp
        · intro _ hdet
          have hgo := scenechange_go_cons_of_nonempty env g ws t0
            [15/100, 8/100, 5/100, 2/100] hdet
          rw [show create_scenechange_grid_auto env g ws t0 =
                scenechange_go env g ws (t0 :: [15/100, 8/100, 5/100, 2/100]) from rfl,
              hgo] at hauto
          simp only [Prod.mk.injEq] at hauto
          rw [← hauto.2.1]
    · simp only [create_thumbnail, if_neg h1, if_neg h2] at h
      simp at h

/-- C8 witness. -/
theorem create_thumbnail_cleanup_witness :
    (create_thumbnail envA gA "scenechange" (3/10) true wsA).2.1 = ⟨false, []⟩ ∧
    (create_thumbnail envA gA "scenechange" (3/10) true wsA).1 =
      Except.ok (build_grid envA.fit gA ((envA.det (3/10)).take (gA.rows * gA.cols))) ∧
    (⟨wsA.present, envA.det (3/10)⟩ : TempDir).sceneFiles = envA.det (3/10) := by
  have h := create_thumbnail_cleanup envA gA "scenechange" (3/10) wsA
    (build_grid envA.fit gA ((envA.det (3/10)).take (gA.rows * gA.cols)))
    ⟨wsA.present, envA.det (3/10)⟩
    [Effect.clearSceneFiles, Effect.runDetector (3/10), Effect.saveOutput] rfl
  exact ⟨h.1 rfl, h.2.2.1, h.2.2.2 rfl (by decide)⟩

/-- C9: for every local file, the upload orchestrator generates a thumbnail
first and then uploads the video with storage class `DEEP_ARCHIVE` and the
thumbnail with storage class `STANDARD` exactly when the file's lower-cased
extension lies in the fixed ten-element video set; otherwise it uploads the
file directly with storage class `STANDARD`. -/
theorem process_file_and_upload_policy (p bucket key sfx mode : String) :
    (str_lower (splitext_ext p) ∈ video_extensions →
      process_file_and_upload p bucket key sfx mode =
        [UploadAction.generateThumbnail p mode (1/10),
         UploadAction.uploadFile p bucket key StorageClass.DEEP_ARCHIVE,
         UploadAction.uploadFile (default_output_path p) bucket
           (s3_thumb_key key sfx) StorageClass.STANDARD]) ∧
    (str_lower (splitext_ext p) ∉ video_extensions →
      process_file_and_upload p bucket key sfx mode =
        [UploadAction.uploadFile p bucket key StorageClass.STANDARD]) := by
  constructor
  · intro h
    simp [process_file_and_upload, process_video_and_upload, h]
  · intro h
    simp [process_file_and_upload, h]

/-- C9 witness. -/
theorem process_file_and_upload_policy_witness :
    process_file_and_upload "/u/clip.MOV" "b" "g/clip.MOV" "_thumbnail.jpg" "timeframe" =
      [UploadAction.generateThumbnail "/u/clip.MOV" "timeframe" (1/10),
       UploadAction.uploadFile "/u/clip.MOV" "b" "g/clip.MOV" StorageClass.DEEP_ARCHIVE,
       UploadAction.uploadFile "/u/clip_thumbnail.jpg" "b" "g/clip_thumbnail.jpg"
         StorageClass.STANDARD] := by
  have hmem : str_lower (splitext_ext "/u/clip.MOV") ∈ video_extensions := by
    have hx : str_lower (splitext_ext "/u/clip.MOV") = ".mov" := rfl
    rw [hx]
    simp [video_extensions]
  exact (process_file_and_upload_policy "/u/clip.MOV" "b" "g/clip.MOV" "_thumbnail.jpg"
    "timeframe").1 hmem

theorem create_timeframe_grid_eta (env : Env) (r c w h1 h2 : Nat) :
    create_timeframe_grid env ⟨r, c, w, h1⟩ = create_timeframe_grid env ⟨r, c, w, h2⟩ := rfl

theorem scenechange_go_eta (env : Env) (r c w h1 h2 : Nat) :
    ∀ (ts : List ℚ) (ws : TempDir),
      scenechange_go env ⟨r, c, w, h1⟩ ws ts = scenechange_go env ⟨r, c, w, h2⟩ ws ts
  | [], ws => by
    rw [scenechange_go_nil, scenechange_go_nil, create_timeframe_grid_eta env r c w h1 h2]
  | t :: ts, ws => by
    simp only [scenechange_go, extract_scenechange_frames]
    rw [scenechange_go_eta env r c w h1 h2 ts ⟨ws.present, env.det t⟩]
    rw [show build_grid env.fit ⟨r, c, w, h1⟩ = build_grid env.fit ⟨r, c, w, h2⟩ from rfl]

/-- C10: the per-cell target height (second component of `thumb_size`) never
affects the result of `create_thumbnail`: two calls identical in everything
but that value return the same image, workspace and effect trace, because the
actual cell height is derived solely from the grid width, the 16:9 ratio and
`rows`. -/
theorem thumb_height_never_affects_output (env : Env) (r c w h1 h2 : Nat)
    (mode : String) (t0 : ℚ) (cl : Bool) (ws : TempDir) :
    create_thumbnail env ⟨r, c, w, h1⟩ mode t0 cl ws =
      create_thumbnail env ⟨r, c, w, h2⟩ mode t0 cl ws := by
  unfold create_thumbnail
  rw [create_timeframe_grid_eta env r c w h1 h2,
      show create_scenechange_grid_auto env ⟨r, c, w, h1⟩ ws t0 =
          create_scenechange_grid_auto env ⟨r, c, w, h2⟩ ws t0 from
        scenechange_go_eta env r c w h1 h2 (thresholds_code t0) ws]

end S3Upload
